import Mathlib

/-!
Verification of the go_ping request-instrumentation core: the correlation-ID
provider, the metrics registry, the instrumentation middleware and the HTTP
handlers, shallowly embedded from the Go source
(observability/metrics.go, middleware/request_logger.go, handlers/handlers.go,
main.go).  Randomness (uuid.New), wall-clock durations and the underlying
net/http ResponseWriter are modelled as explicit oracle parameters.
-/

namespace GoPing

/-! ## Correlation-ID provider (observability, correlation part of metrics.go) -/

/-- A request-scoped context, modelling Go's context.Context value chain:
context.WithValue conses a new key-value pair on the front and ctx.Value
returns the most recent binding for a key.  Only string values under the
typed correlation key occur in this program, so values are plain strings. -/
abbrev Ctx := List (String × String)

/-- ctx.Value lookup: the most recent binding for a key, if any. -/
def ctxValue (ctx : Ctx) (key : String) : Option String :=
  match ctx with
  | [] => none
  | (k, v) :: rest => if k = key then some v else ctxValue rest key

/-- CorrelationID, the context key used to store the correlation ID. -/
def CorrelationID : String := "correlation-id"

/-- RequestIDHeader, the HTTP header name for incoming request IDs. -/
def RequestIDHeader : String := "X-Request-ID"

/-- CorrelationIDHeader, the alternative inbound correlation header. -/
def CorrelationIDHeader : String := "X-Correlation-ID"

/-- ResponseCorrelationIDHeader, the header exposing the ID on responses. -/
def ResponseCorrelationIDHeader : String := "X-Correlation-ID"

/-- GetOrCreateCorrelationID: returns the ID from the context when present
and non-empty, otherwise a freshly generated one.  GenerateCorrelationID
calls uuid.New(), a random source, so the generated value is passed in as
the oracle argument fresh. -/
def GetOrCreateCorrelationID (ctx : Ctx) (fresh : String) : String :=
  match ctxValue ctx CorrelationID with
  | some corrID => if corrID ≠ "" then corrID else fresh
  | none => fresh

/-- WithCorrelationID: adds a correlation ID to the context
(context.WithValue, immutable chaining). -/
def WithCorrelationID (ctx : Ctx) (id : String) : Ctx :=
  (CorrelationID, id) :: ctx

/-- GetCorrelationID: retrieves the correlation ID from the context,
returning the empty string if not found. -/
def GetCorrelationID (ctx : Ctx) : String :=
  match ctxValue ctx CorrelationID with
  | some corrID => corrID
  | none => ""

/-! ## Metrics data (observability/metrics.go)

The Metrics struct holds one collector per field.  Counters are modelled as
naturals (they are only ever incremented by 1, except the byte counter which
takes a float Add and is a rational), the gauge as an integer, and each
histogram as the chronological list of observed values (a rational per
float64 observation). -/

structure MetricsData where
  RequestCounter : Nat
  RequestDuration : List ℚ
  RequestSize : List ℚ
  ResponseSize : List ℚ
  HTTPErrorCounter : Nat
  ActiveRequestsGauge : Int
  BackgroundJobCounter : Nat
  BackgroundJobDuration : List ℚ
  BackgroundJobErrorCount : Nat
  APICallCounter : Nat
  APICallDuration : List ℚ
  APICallErrorCounter : Nat
  FileProcessCounter : Nat
  FileProcessDuration : List ℚ
  FileProcessBytesCounter : ℚ
  FileProcessErrorCounter : Nat
  deriving DecidableEq

/-- The freshly constructed instrument set: every collector starts at zero
observations, mirroring the composite literal built inside once.Do. -/
def newMetricsData : MetricsData :=
  { RequestCounter := 0
    RequestDuration := []
    RequestSize := []
    ResponseSize := []
    HTTPErrorCounter := 0
    ActiveRequestsGauge := 0
    BackgroundJobCounter := 0
    BackgroundJobDuration := []
    BackgroundJobErrorCount := 0
    APICallCounter := 0
    APICallDuration := []
    APICallErrorCounter := 0
    FileProcessCounter := 0
    FileProcessDuration := []
    FileProcessBytesCounter := 0
    FileProcessErrorCounter := 0 }

/-- Selector for the histogram argument of Metrics.ObserveDuration
(the Go method receives the prometheus.Histogram to observe into). -/
inductive HistogramSel
  | requestDuration
  | backgroundJobDuration
  | apiCallDuration
  | fileProcessDuration
  deriving DecidableEq

/-- RecordRequest: increments the request counter and the active-request
gauge, and returns the deferred completion closure that decrements the
active-request gauge. -/
def MetricsData.RecordRequest (m : MetricsData) :
    MetricsData × (MetricsData → MetricsData) :=
  ({ m with RequestCounter := m.RequestCounter + 1
            ActiveRequestsGauge := m.ActiveRequestsGauge + 1 },
   fun mm => { mm with ActiveRequestsGauge := mm.ActiveRequestsGauge - 1 })

/-- ObserveDuration: observes a duration into the selected histogram. -/
def MetricsData.ObserveDuration (m : MetricsData) (h : HistogramSel) (d : ℚ) :
    MetricsData :=
  match h with
  | .requestDuration => { m with RequestDuration := m.RequestDuration ++ [d] }
  | .backgroundJobDuration =>
      { m with BackgroundJobDuration := m.BackgroundJobDuration ++ [d] }
  | .apiCallDuration => { m with APICallDuration := m.APICallDuration ++ [d] }
  | .fileProcessDuration =>
      { m with FileProcessDuration := m.FileProcessDuration ++ [d] }

/-- ObserveRequestSize: observes the size of an HTTP request. -/
def MetricsData.ObserveRequestSize (m : MetricsData) (size : ℚ) : MetricsData :=
  { m with RequestSize := m.RequestSize ++ [size] }

/-- ObserveResponseSize: observes the size of an HTTP response. -/
def MetricsData.ObserveResponseSize (m : MetricsData) (size : ℚ) : MetricsData :=
  { m with ResponseSize := m.ResponseSize ++ [size] }

/-- RecordAPICall: increments the API-call counter, observes the duration,
and increments the error counter only when err is non-nil. -/
def MetricsData.RecordAPICall (m : MetricsData) (duration : ℚ) (err : Bool) :
    MetricsData :=
  let m1 := { m with APICallCounter := m.APICallCounter + 1 }
  let m2 := { m1 with APICallDuration := m1.APICallDuration ++ [duration] }
  if err then { m2 with APICallErrorCounter := m2.APICallErrorCounter + 1 } else m2

/-- RecordBackgroundJob: increments the job counter, observes the duration,
and increments the error counter only when err is non-nil. -/
def MetricsData.RecordBackgroundJob (m : MetricsData) (duration : ℚ) (err : Bool) :
    MetricsData :=
  let m1 := { m with BackgroundJobCounter := m.BackgroundJobCounter + 1 }
  let m2 := { m1 with BackgroundJobDuration := m1.BackgroundJobDuration ++ [duration] }
  if err then { m2 with BackgroundJobErrorCount := m2.BackgroundJobErrorCount + 1 } else m2

/-- RecordFileProcess: increments the process counter, observes the
duration, adds the byte count, and increments the error counter only when
err is non-nil. -/
def MetricsData.RecordFileProcess (m : MetricsData) (duration : ℚ) (bytes : ℚ)
    (err : Bool) : MetricsData :=
  let m1 := { m with FileProcessCounter := m.FileProcessCounter + 1 }
  let m2 := { m1 with FileProcessDuration := m1.FileProcessDuration ++ [duration] }
  let m3 := { m2 with FileProcessBytesCounter := m2.FileProcessBytesCounter + bytes }
  if err then { m3 with FileProcessErrorCounter := m3.FileProcessErrorCounter + 1 } else m3

/-! ## Registry singleton (InitMetrics / GetMetrics)

The package-level state is the metricsInstance pointer and the sync.Once
cell.  Pointer identity is modelled by an allocation counter: each
construction of a Metrics value yields a fresh id.  promauto registers each
collector with the default registry at construction time; the registered
list records the collector names in registration order (duplicate
registration would panic in prometheus, so never re-registering is visible
as each name occurring once). -/

/-- The sixteen collector names, in the construction order of InitMetrics. -/
def metricNames : List String :=
  ["http_requests_total", "http_request_duration_seconds",
   "http_request_size_bytes", "http_response_size_bytes",
   "http_errors_total", "http_requests_active",
   "background_jobs_total", "background_job_duration_seconds",
   "background_job_errors_total",
   "api_calls_total", "api_call_duration_seconds", "api_call_errors_total",
   "file_processes_total", "file_process_duration_seconds",
   "file_process_bytes_total", "file_process_errors_total"]

structure World where
  metricsInstance : Option Nat
  onceDone : Bool
  allocCount : Nat
  registered : List String
  deriving DecidableEq

/-- The process state at startup: nil instance, sync.Once not yet run. -/
def initialWorld : World :=
  { metricsInstance := none, onceDone := false, allocCount := 0, registered := [] }

/-- InitMetrics: once.Do constructs and registers the instrument set the
first time only; every call returns the metricsInstance pointer. -/
def InitMetrics (w : World) : World × Option Nat :=
  let w1 :=
    if w.onceDone then w
    else
      { metricsInstance := some w.allocCount
        onceDone := true
        allocCount := w.allocCount + 1
        registered := w.registered ++ metricNames }
  (w1, w1.metricsInstance)

/-- The panic message of GetMetrics. -/
def getMetricsPanicMsg : String := "metrics not initialized: call InitMetrics() first"

/-- GetMetrics: returns the initialized instance, or panics (modelled as
Except.error) when metricsInstance is nil. -/
def GetMetrics (w : World) : Except String Nat :=
  match w.metricsInstance with
  | none => .error getMetricsPanicMsg
  | some p => .ok p

/-- One registry operation: a call to InitMetrics or to GetMetrics. -/
inductive RegOp
  | initOp
  | getOp
  deriving DecidableEq

/-- The observable outcome of a registry operation.  A panic aborts only
the calling goroutine, so the operation sequence continues. -/
inductive RegRes
  | ptr (p : Option Nat)
  | got (p : Nat)
  | panicked (msg : String)
  deriving DecidableEq

/-- Runs a sequence of registry operations (one interleaving of the
callers), threading the package state and collecting each call's result. -/
def runOps (w : World) : List RegOp → World × List RegRes
  | [] => (w, [])
  | RegOp.initOp :: rest =>
      let r := InitMetrics w
      let out := runOps r.1 rest
      (out.1, RegRes.ptr r.2 :: out.2)
  | RegOp.getOp :: rest =>
      match GetMetrics w with
      | .ok p =>
          let out := runOps w rest
          (out.1, RegRes.got p :: out.2)
      | .error msg =>
          let out := runOps w rest
          (out.1, RegRes.panicked msg :: out.2)

/-! ## Response-writer wrapper (middleware/request_logger.go, responseWriter)

The wrapper embeds the underlying http.ResponseWriter.  The inner handler's
interaction with the writer is a list of events: Header().Set calls,
WriteHeader calls and Write calls.  The underlying writer's Write result
(bytes accepted and error flag) is an oracle function of the chunk. -/

/-- One call the inner handler makes on the response writer. -/
inductive WriterEvent
  | setHeader (k v : String)
  | writeHeader (code : Nat)
  | write (chunk : String)
  deriving DecidableEq

/-- The state of the underlying http.ResponseWriter: the header map, the
codes passed through WriteHeader, and the body chunks received, in order. -/
structure Underlying where
  headers : List (String × String)
  codes : List Nat
  chunks : List String
  deriving DecidableEq

/-- The responseWriter wrapper state: the embedded underlying writer plus
the captured statusCode and written fields. -/
structure RWState where
  und : Underlying
  statusCode : Nat
  written : Int
  deriving DecidableEq

/-- Header lookup (http.Header.Get): first binding for the key, or "". -/
def headerGet (hs : List (String × String)) (key : String) : String :=
  match hs with
  | [] => ""
  | (k, v) :: rest => if k = key then v else headerGet rest key

/-- Header replacement (http.Header.Set): the key holds exactly v after. -/
def headerSet (hs : List (String × String)) (key v : String) :
    List (String × String) :=
  hs.filter (fun p => p.1 ≠ key) ++ [(key, v)]

/-- Runs the handler's writer events through the wrapper.
Write forwards the chunk to the underlying writer, adds the reported count
n to written, and returns the underlying result unchanged; WriteHeader
stores the code and forwards it; Header().Set goes straight to the shared
header map.  Also returns the (n, err) result of each Write, in order. -/
def runEvents (wres : String → Nat × Bool) (s : RWState) :
    List WriterEvent → RWState × List (Nat × Bool)
  | [] => (s, [])
  | WriterEvent.setHeader k v :: rest =>
      runEvents wres
        { s with und := { s.und with headers := headerSet s.und.headers k v } } rest
  | WriterEvent.writeHeader code :: rest =>
      runEvents wres
        { s with statusCode := code
                 und := { s.und with codes := s.und.codes ++ [code] } } rest
  | WriterEvent.write b :: rest =>
      let r := wres b
      let s1 := { s with written := s.written + (r.1 : Int)
                         und := { s.und with chunks := s.und.chunks ++ [b] } }
      let out := runEvents wres s1 rest
      (out.1, r :: out.2)

/-- The chunks passed to Write, in order. -/
def writesOf : List WriterEvent → List String
  | [] => []
  | WriterEvent.write b :: rest => b :: writesOf rest
  | _ :: rest => writesOf rest

/-- The status recorded after a sequence of events: the code of the most
recent WriteHeader call, or the default when none occurred. -/
def lastStatus (dflt : Nat) : List WriterEvent → Nat
  | [] => dflt
  | WriterEvent.writeHeader c :: rest => lastStatus c rest
  | _ :: rest => lastStatus dflt rest

/-- Whether the handler ever calls WriteHeader. -/
def hasWriteHeader : List WriterEvent → Bool
  | [] => false
  | WriterEvent.writeHeader _ :: _ => true
  | _ :: rest => hasWriteHeader rest

/-- Whether the handler ever calls Header().Set on the given key. -/
def setsHeaderKey (key : String) : List WriterEvent → Bool
  | [] => false
  | WriterEvent.setHeader k _ :: rest => k = key || setsHeaderKey key rest
  | _ :: rest => setsHeaderKey key rest

/-! ## Instrumentation middleware (middleware/request_logger.go) -/

/-- An inbound http.Request: the fields the middleware reads. -/
structure Request where
  method : String
  path : String
  headers : List (String × String)
  contentLength : Int
  remoteAddr : String
  userAgent : String
  ctx : Ctx

/-- One observable step of the middleware, in execution order; the trace
makes the ordering of side effects around the inner handler provable. -/
inductive MWEvent
  | setRespHeader (k v : String)
  | recordRequestStart
  | observeReqSize (size : Int)
  | logStart (method path remoteAddr userAgent id : String)
  | handlerRun
  | observeDur
  | observeRespSize (n : Int)
  | logEnd (method path : String) (status : Nat) (respSize : Int) (id : String)
  | incHTTPError
  | tokenRun
  deriving DecidableEq

/-- Whether a middleware trace contains a request-size observation. -/
def hasObserveReqSize : List MWEvent → Bool
  | [] => false
  | MWEvent.observeReqSize _ :: _ => true
  | _ :: rest => hasObserveReqSize rest

/-- What one middleware invocation produced. -/
structure MWResult where
  correlationID : String
  handlerCtx : Ctx
  final : RWState
  metrics : MetricsData
  trace : List MWEvent

/-- The metric updates one middleware invocation performs, in source
order: RecordRequest (line 61), the conditional request-size observation
(lines 70-73), the duration observation (line 88), the response-size
observation (line 89), the conditional HTTP-error increment (lines
100-103), and finally the deferred completion closure from RecordRequest.
The inner handler has no access to the registry state, so the final
metrics value is this composition. -/
def mwMetrics (m : MetricsData) (contentLength : Int) (dur : ℚ)
    (respWritten : Int) (status : Nat) : MetricsData :=
  let recd := m.RecordRequest
  let m1 := recd.1
  let token := recd.2
  let requestSize : Int := contentLength
  let m2 := if requestSize > 0 then m1.ObserveRequestSize (requestSize : ℚ) else m1
  let m3 := m2.ObserveDuration HistogramSel.requestDuration dur
  let m4 := m3.ObserveResponseSize (respWritten : ℚ)
  let m5 :=
    if status ≥ 500 then
      { m4 with HTTPErrorCounter := m4.HTTPErrorCounter + 1 }
    else m4
  token m5

/-- The middleware's side effects in execution order: the response header
write (line 54), the RecordRequest increments (line 61), the conditional
request-size observation (lines 70-73), the start log line (line 76), the
inner handler call (line 84), the duration and response-size observations
(lines 88-89), the completion log line (line 92), the conditional
HTTP-error increment (lines 100-103), and the deferred gauge decrement. -/
def mwTrace (method path remoteAddr userAgent cid : String)
    (contentLength : Int) (status : Nat) (respSize : Int) : List MWEvent :=
  [MWEvent.setRespHeader ResponseCorrelationIDHeader cid,
   MWEvent.recordRequestStart] ++
  (if contentLength > 0 then [MWEvent.observeReqSize contentLength] else []) ++
  [MWEvent.logStart method path remoteAddr userAgent cid,
   MWEvent.handlerRun,
   MWEvent.observeDur,
   MWEvent.observeRespSize respSize,
   MWEvent.logEnd method path status respSize cid] ++
  (if status ≥ 500 then [MWEvent.incHTTPError] else []) ++
  [MWEvent.tokenRun]

/-- RequestInstrumentationMiddleware, one request end to end.
The inner handler is a function from the context it is served with to its
writer events; fresh is the uuid the middleware would generate, dur the
measured wall-clock duration, wres the underlying writer's Write results,
and w0 the underlying writer's initial header map.  GetMetrics resolves
against inst (the metricsInstance pointee); a nil instance panics, modelled
as Except.error. -/
def RequestInstrumentationMiddleware (handler : Ctx → List WriterEvent)
    (inst : Option MetricsData) (fresh : String) (dur : ℚ)
    (wres : String → Nat × Bool) (w0 : List (String × String))
    (r : Request) : Except String MWResult :=
  let correlationID0 := headerGet r.headers RequestIDHeader
  let correlationID1 :=
    if correlationID0 = "" then headerGet r.headers CorrelationIDHeader
    else correlationID0
  let correlationID := if correlationID1 = "" then fresh else correlationID1
  let ctx := WithCorrelationID r.ctx correlationID
  let w1 := headerSet w0 ResponseCorrelationIDHeader correlationID
  match inst with
  | none => .error getMetricsPanicMsg
  | some metrics =>
    let rw0 : RWState :=
      { und := { headers := w1, codes := [], chunks := [] }
        statusCode := 200
        written := 0 }
    let rw1 := (runEvents wres rw0 (handler ctx)).1
    .ok
      { correlationID := correlationID
        handlerCtx := ctx
        final := rw1
        metrics := mwMetrics metrics r.contentLength dur rw1.written rw1.statusCode
        trace := mwTrace r.method r.path r.remoteAddr r.userAgent correlationID
          r.contentLength rw1.statusCode rw1.written }

/-! ## Handlers and routing (handlers/handlers.go, main.go)

Each handler is modelled by the writer calls it performs; the
LogWithCorrelationID calls touch only the process log, not the response,
and are elided.  fmt.Fprintln appends a newline to its argument. -/

/-- The body written by HealthHandler: the JSON literal plus Fprintln's
newline. -/
def healthBody : String := "\x7b\"status\":\"healthy\"\x7d\n"

/-- PongHandler: text/plain, status 200, body "pong" plus newline. -/
def PongHandler : Ctx → List WriterEvent := fun _ =>
  [WriterEvent.setHeader "Content-Type" "text/plain",
   WriterEvent.writeHeader 200,
   WriterEvent.write "pong\n"]

/-- HealthHandler: application/json, status 200, the healthy JSON body. -/
def HealthHandler : Ctx → List WriterEvent := fun _ =>
  [WriterEvent.setHeader "Content-Type" "application/json",
   WriterEvent.writeHeader 200,
   WriterEvent.write healthBody]

/-- The (name, help, type) rows of the registered collector families, in
registration order, taken from the CounterOpts/HistogramOpts/GaugeOpts
literals of InitMetrics. -/
def metricFamilies : List (String × String × String) :=
  [("http_requests_total", "Total number of HTTP requests received", "counter"),
   ("http_request_duration_seconds", "HTTP request latency in seconds", "histogram"),
   ("http_request_size_bytes", "HTTP request size in bytes", "histogram"),
   ("http_response_size_bytes", "HTTP response size in bytes", "histogram"),
   ("http_errors_total", "Total number of HTTP errors (5xx)", "counter"),
   ("http_requests_active", "Number of currently active HTTP requests", "gauge"),
   ("background_jobs_total", "Total number of background jobs executed", "counter"),
   ("background_job_duration_seconds", "Background job execution time in seconds", "histogram"),
   ("background_job_errors_total", "Total number of background job errors", "counter"),
   ("api_calls_total", "Total number of external API calls made", "counter"),
   ("api_call_duration_seconds", "External API call latency in seconds", "histogram"),
   ("api_call_errors_total", "Total number of external API call errors", "counter"),
   ("file_processes_total", "Total number of file processing operations", "counter"),
   ("file_process_duration_seconds", "File processing duration in seconds", "histogram"),
   ("file_process_bytes_total", "Total bytes processed", "counter"),
   ("file_process_errors_total", "Total number of file processing errors", "counter")]

/-- Modelled from the spec: the Prometheus text exposition renderer used by
promhttp.Handler (a third-party library, not part of this repository's
source).  Per the spec, each instrument renders as a HELP line then a TYPE
line, followed by sample lines; the sample lines depend on runtime values
and are elided here. -/
def renderFamily : String × String × String → String
  | (name, help, ty) =>
      "# HELP " ++ name ++ " " ++ help ++ "\n" ++
      "# TYPE " ++ name ++ " " ++ ty ++ "\n"

/-- The concatenation of the renderings of a list of families. -/
def expositionOf : List (String × String × String) → String
  | [] => ""
  | fam :: rest => renderFamily fam ++ expositionOf rest

/-- The body served at the metrics endpoint: the exposition of every
registered family, in registration order. -/
def metricsExposition : String := expositionOf metricFamilies

/-- MetricsHandler: delegates to promhttp.Handler, which writes the
exposition body with status 200 on success. -/
def MetricsHandler : Ctx → List WriterEvent := fun _ =>
  [WriterEvent.writeHeader 200, WriterEvent.write metricsExposition]

/-- The route table of main: "/metrics" and "/health" are exact patterns,
the "/" pattern catches every other path (net/http ServeMux). -/
def muxRoute (path : String) : Ctx → List WriterEvent :=
  if path = "/metrics" then MetricsHandler
  else if path = "/health" then HealthHandler
  else PongHandler

/-- A fresh response recorder (httptest.NewRecorder): empty headers, no
codes, no body, default status, accepts every chunk in full. -/
def recorderInit : RWState :=
  { und := { headers := [], codes := [], chunks := [] }
    statusCode := 200
    written := 0 }

/-- The underlying Write result of a recorder: the full chunk, no error. -/
def fullWrite : String → Nat × Bool := fun b => (b.length, false)

/-- Serves a GET on the given path through the route table onto a fresh
recorder. -/
def serve (path : String) : RWState :=
  (runEvents fullWrite recorderInit (muxRoute path [])).1

/-- The concatenation of a list of body chunks. -/
def concatChunks : List String → String
  | [] => ""
  | [c] => c
  | c :: rest => c ++ concatChunks rest

/-- The response body: the concatenation of the chunks the underlying
writer received. -/
def responseBody (s : RWState) : String := concatChunks s.und.chunks

/-- The response status on the wire: the first WriteHeader code, or 200
when the handler wrote the body without an explicit code. -/
def responseStatus (s : RWState) : Nat := s.und.codes.headD 200

/-! ## Helper lemmas -/

/-- Reading back a correlation ID just attached returns it, empty or not. -/
lemma getCorrelation_with (ctx : Ctx) (id : String) :
    GetCorrelationID (WithCorrelationID ctx id) = id := by
  simp [GetCorrelationID, WithCorrelationID, ctxValue, CorrelationID]

/-- Setting a header key then reading that key returns the set value. -/
lemma headerGet_headerSet_self (hs : List (String × String)) (key v : String) :
    headerGet (headerSet hs key v) key = v := by
  induction hs with
  | nil => simp [headerSet, headerGet]
  | cons p rest ih =>
      obtain ⟨k, w⟩ := p
      by_cases hk : k = key
      · simpa [headerSet, hk] using ih
      · simpa [headerSet, headerGet, hk] using ih

/-- Setting one header key leaves lookups of other keys unchanged. -/
lemma headerGet_headerSet_ne (hs : List (String × String)) (k key v : String)
    (hne : k ≠ key) :
    headerGet (headerSet hs k v) key = headerGet hs key := by
  induction hs with
  | nil => simp [headerSet, headerGet, hne]
  | cons p rest ih =>
      obtain ⟨k1, w1⟩ := p
      by_cases h1 : k1 = k
      · subst h1
        simpa [headerSet, headerGet, hne, Ne.symm hne] using ih
      · by_cases h2 : k1 = key
        · subst h2
          simp [headerSet, headerGet, Ne.symm hne]
        · simpa [headerSet, headerGet, h1, h2] using ih

/-- A handler that never sets a header key leaves that response header
unchanged through the wrapper. -/
lemma runEvents_headerGet (wres : String → Nat × Bool) (key : String)
    (evs : List WriterEvent) :
    ∀ s : RWState, setsHeaderKey key evs = false →
      headerGet ((runEvents wres s evs).1).und.headers key =
        headerGet s.und.headers key := by
  induction evs with
  | nil => intro s _; rfl
  | cons e rest ih =>
      intro s hset
      cases e with
      | setHeader k v =>
          have hk : (k = key) = False := by
            by_contra hcontra
            simp [setsHeaderKey] at hset
            exact hset.1 (by simpa using hcontra)
          have hkk : k ≠ key := by simpa using hk
          have hrest : setsHeaderKey key rest = false := by
            simp [setsHeaderKey, hkk] at hset
            exact hset
          rw [runEvents, ih _ hrest]
          simpa using headerGet_headerSet_ne s.und.headers k key v hkk
      | writeHeader code =>
          have hrest : setsHeaderKey key rest = false := by
            simpa [setsHeaderKey] using hset
          rw [runEvents, ih _ hrest]
      | write b =>
          have hrest : setsHeaderKey key rest = false := by
            simpa [setsHeaderKey] using hset
          rw [runEvents]
          exact ih _ hrest

/-- A handler that never calls WriteHeader leaves the captured status at
its default. -/
lemma runEvents_statusCode_default (wres : String → Nat × Bool)
    (evs : List WriterEvent) :
    ∀ s : RWState, hasWriteHeader evs = false →
      ((runEvents wres s evs).1).statusCode = s.statusCode := by
  induction evs with
  | nil => intro s _; rfl
  | cons e rest ih =>
      intro s hwh
      cases e with
      | setHeader k v =>
          rw [runEvents]
          exact ih _ (by simpa [hasWriteHeader] using hwh)
      | writeHeader code => simp [hasWriteHeader] at hwh
      | write b =>
          rw [runEvents]
          exact ih _ (by simpa [hasWriteHeader] using hwh)

/-- Uninitialized registry: any number of GetMetrics calls leaves the
state unchanged and every call panics. -/
lemma runOps_get_none (n : Nat) :
    ∀ w : World, w.metricsInstance = none →
      runOps w (List.replicate n RegOp.getOp) =
        (w, List.replicate n (RegRes.panicked getMetricsPanicMsg)) := by
  induction n with
  | zero => intro w _; rfl
  | succ k ih =>
      intro w hw
      simp only [List.replicate_succ, runOps, GetMetrics, hw, ih w hw]

/-- Initialized registry: any number of GetMetrics calls leaves the state
unchanged and every call returns the singleton pointer. -/
lemma runOps_get_some (n : Nat) :
    ∀ (w : World) (p : Nat), w.metricsInstance = some p →
      runOps w (List.replicate n RegOp.getOp) =
        (w, List.replicate n (RegRes.got p)) := by
  induction n with
  | zero => intro w p _; rfl
  | succ k ih =>
      intro w p hw
      simp only [List.replicate_succ, runOps, GetMetrics, hw, ih w p hw]

/-- Once sync.Once has run, further InitMetrics calls change nothing and
return the existing pointer. -/
lemma runOps_init_done (n : Nat) :
    ∀ w : World, w.onceDone = true →
      runOps w (List.replicate n RegOp.initOp) =
        (w, List.replicate n (RegRes.ptr w.metricsInstance)) := by
  induction n with
  | zero => intro w _; rfl
  | succ k ih =>
      intro w hw
      simp only [List.replicate_succ, runOps, InitMetrics, hw, if_true, ih w hw]

/-- Running a concatenated operation sequence runs the pieces in order. -/
lemma runOps_append (a b : List RegOp) :
    ∀ w : World,
      runOps w (a ++ b) =
        ((runOps (runOps w a).1 b).1,
         (runOps w a).2 ++ (runOps (runOps w a).1 b).2) := by
  induction a with
  | nil => intro w; rfl
  | cons op rest ih =>
      intro w
      cases op with
      | initOp =>
          simp only [List.cons_append, runOps, List.append_eq, ih]
      | getOp =>
          cases hg : GetMetrics w with
          | ok p =>
              simp only [List.cons_append, runOps, hg, List.append_eq, ih]
          | error msg =>
              simp only [List.cons_append, runOps, hg, List.append_eq, ih]

/-- RecordRequest's first component leaves the error counter alone. -/
lemma recordRequest_fst_httpError (m : MetricsData) :
    (m.RecordRequest.1).HTTPErrorCounter = m.HTTPErrorCounter := rfl

/-- The completion closure touches only the active-request gauge. -/
lemma recordRequest_snd_httpError (m mm : MetricsData) :
    (m.RecordRequest.2 mm).HTTPErrorCounter = mm.HTTPErrorCounter := rfl

/-- Request-size observation leaves the error counter alone. -/
lemma observeRequestSize_httpError (m : MetricsData) (v : ℚ) :
    (m.ObserveRequestSize v).HTTPErrorCounter = m.HTTPErrorCounter := rfl

/-- Duration observation leaves the error counter alone. -/
lemma observeDuration_httpError (m : MetricsData) (h : HistogramSel) (d : ℚ) :
    (m.ObserveDuration h d).HTTPErrorCounter = m.HTTPErrorCounter := by
  cases h <;> rfl

/-- Response-size observation leaves the error counter alone. -/
lemma observeResponseSize_httpError (m : MetricsData) (v : ℚ) :
    (m.ObserveResponseSize v).HTTPErrorCounter = m.HTTPErrorCounter := rfl

/-- The middleware's metric pipeline changes the error counter by one
exactly when the captured status is a 5xx. -/
lemma mwMetrics_HTTPErrorCounter (m : MetricsData) (cl : Int) (dur : ℚ)
    (w : Int) (st : Nat) :
    (mwMetrics m cl dur w st).HTTPErrorCounter =
      m.HTTPErrorCounter + (if st ≥ 500 then 1 else 0) := by
  simp only [mwMetrics, recordRequest_snd_httpError,
    apply_ite MetricsData.HTTPErrorCounter, observeResponseSize_httpError,
    observeDuration_httpError, observeRequestSize_httpError,
    recordRequest_fst_httpError, ite_self]
  split_ifs <;> simp

/-- RecordRequest's first component leaves the request-size histogram
alone. -/
lemma recordRequest_fst_reqSize (m : MetricsData) :
    (m.RecordRequest.1).RequestSize = m.RequestSize := rfl

/-- The completion closure leaves the request-size histogram alone. -/
lemma recordRequest_snd_reqSize (m mm : MetricsData) :
    (m.RecordRequest.2 mm).RequestSize = mm.RequestSize := rfl

/-- Duration observation leaves the request-size histogram alone. -/
lemma observeDuration_reqSize (m : MetricsData) (h : HistogramSel) (d : ℚ) :
    (m.ObserveDuration h d).RequestSize = m.RequestSize := by
  cases h <;> rfl

/-- Response-size observation leaves the request-size histogram alone. -/
lemma observeResponseSize_reqSize (m : MetricsData) (v : ℚ) :
    (m.ObserveResponseSize v).RequestSize = m.RequestSize := rfl

/-- The middleware's metric pipeline appends to the request-size histogram
exactly when the declared content length is positive. -/
lemma mwMetrics_RequestSize (m : MetricsData) (cl : Int) (dur : ℚ)
    (w : Int) (st : Nat) :
    (mwMetrics m cl dur w st).RequestSize =
      (if cl > 0 then m.RequestSize ++ [(cl : ℚ)] else m.RequestSize) := by
  simp only [mwMetrics, recordRequest_snd_reqSize,
    apply_ite MetricsData.RequestSize, observeResponseSize_reqSize,
    observeDuration_reqSize, MetricsData.ObserveRequestSize,
    recordRequest_fst_reqSize, ite_self]

/-- With a positive content length the request-size observation sits at
trace position 2, before the handler call at position 4. -/
lemma mwTrace_obs_before_handler (a b c d e : String) (cl : Int) (st : Nat)
    (n : Int) (h : cl > 0) :
    (mwTrace a b c d e cl st n).get? 2 = some (MWEvent.observeReqSize cl) ∧
    (mwTrace a b c d e cl st n).get? 4 = some MWEvent.handlerRun := by
  simp [mwTrace, h]

/-- With a non-positive content length the trace holds no request-size
observation at all. -/
lemma mwTrace_no_obs (a b c d e : String) (cl : Int) (st : Nat) (n : Int)
    (h : ¬ cl > 0) :
    hasObserveReqSize (mwTrace a b c d e cl st n) = false := by
  simp only [mwTrace, h, if_false, List.nil_append, List.cons_append]
  split_ifs <;> rfl

/-- The completion log line is always in the middleware trace. -/
lemma mwTrace_logEnd_mem (a b c d e : String) (cl : Int) (st : Nat) (n : Int) :
    MWEvent.logEnd a b st n e ∈ mwTrace a b c d e cl st n := by
  simp [mwTrace]

/-! ## Claims -/

/-- C1: the correlation ID of a request is the X-Request-ID header when
non-empty, else the X-Correlation-ID header when non-empty, else the
freshly generated UUID; the response carries an X-Correlation-ID header
equal to it (for inner handlers that do not themselves set that header, as
none in this repository do), and the same ID is attached to the request
context handed to the inner handler. -/
theorem correlation_id_priority_and_propagation
    (handler : Ctx → List WriterEvent) (m : MetricsData) (fresh : String)
    (dur : ℚ) (wres : String → Nat × Bool) (w0 : List (String × String))
    (r : Request)
    (hh : ∀ c : Ctx, setsHeaderKey ResponseCorrelationIDHeader (handler c) = false) :
    ∃ res : MWResult,
      RequestInstrumentationMiddleware handler (some m) fresh dur wres w0 r =
        Except.ok res ∧
      res.correlationID =
        (if headerGet r.headers RequestIDHeader ≠ "" then
          headerGet r.headers RequestIDHeader
         else if headerGet r.headers CorrelationIDHeader ≠ "" then
          headerGet r.headers CorrelationIDHeader
         else fresh) ∧
      headerGet res.final.und.headers ResponseCorrelationIDHeader =
        res.correlationID ∧
      res.handlerCtx = WithCorrelationID r.ctx res.correlationID ∧
      GetCorrelationID res.handlerCtx = res.correlationID := by
  refine ⟨_, rfl, ?_, ?_, rfl, getCorrelation_with _ _⟩
  · dsimp only
    by_cases h0 : headerGet r.headers RequestIDHeader = "" <;>
      by_cases h1 : headerGet r.headers CorrelationIDHeader = "" <;>
        simp [h0, h1]
  · dsimp only
    rw [runEvents_headerGet _ _ _ _ (hh _)]
    exact headerGet_headerSet_self _ _ _

/-- A concrete request without correlation headers, used as witness
input. -/
def demoRequest : Request :=
  { method := "GET"
    path := "/"
    headers := []
    contentLength := 0
    remoteAddr := "192.0.2.1:1234"
    userAgent := "curl/8.0"
    ctx := [] }

/-- C1 witness: the middleware at a concrete headerless request with a
no-op handler. -/
theorem correlation_id_priority_and_propagation_witness :
    ∃ res : MWResult,
      RequestInstrumentationMiddleware (fun _ => []) (some newMetricsData)
        "generated-uuid" 0 fullWrite [] demoRequest = Except.ok res ∧
      res.correlationID =
        (if headerGet demoRequest.headers RequestIDHeader ≠ "" then
          headerGet demoRequest.headers RequestIDHeader
         else if headerGet demoRequest.headers CorrelationIDHeader ≠ "" then
          headerGet demoRequest.headers CorrelationIDHeader
         else "generated-uuid") ∧
      headerGet res.final.und.headers ResponseCorrelationIDHeader =
        res.correlationID ∧
      res.handlerCtx = WithCorrelationID demoRequest.ctx res.correlationID ∧
      GetCorrelationID res.handlerCtx = res.correlationID :=
  correlation_id_priority_and_propagation (fun _ => []) newMetricsData
    "generated-uuid" 0 fullWrite [] demoRequest (fun _ => rfl)

/-- C2: every GetMetrics call before initialization panics, on every such
call, and after an InitMetrics call every GetMetrics call returns the
singleton without panicking. -/
theorem getMetrics_fail_fast (n k : Nat) :
    (runOps initialWorld (List.replicate n RegOp.getOp)).2 =
      List.replicate n (RegRes.panicked getMetricsPanicMsg) ∧
    (runOps initialWorld
        (List.replicate n RegOp.getOp ++ RegOp.initOp ::
          List.replicate k RegOp.getOp)).2 =
      List.replicate n (RegRes.panicked getMetricsPanicMsg) ++
        RegRes.ptr (some 0) :: List.replicate k (RegRes.got 0) := by
  have h1 := runOps_get_none n initialWorld rfl
  refine ⟨by rw [h1], ?_⟩
  rw [runOps_append, h1]
  have hstep : runOps initialWorld
      (RegOp.initOp :: List.replicate k RegOp.getOp) =
      (⟨some 0, true, 1, metricNames⟩,
        RegRes.ptr (some 0) :: List.replicate k (RegRes.got 0)) := by
    have hg := runOps_get_some k (⟨some 0, true, 1, metricNames⟩ : World) 0 rfl
    simp only [runOps]
    rw [show InitMetrics initialWorld =
      ((⟨some 0, true, 1, metricNames⟩ : World), some 0) from rfl]
    rw [hg]
  rw [hstep]

/-- C3: any positive number of InitMetrics calls constructs the instrument
set exactly once (one allocation, each collector registered exactly once)
and every call returns the same singleton pointer. -/
theorem initMetrics_exactly_once (n : Nat) (h : 0 < n) :
    (runOps initialWorld (List.replicate n RegOp.initOp)).1.allocCount = 1 ∧
    (runOps initialWorld (List.replicate n RegOp.initOp)).1.registered =
      metricNames ∧
    (runOps initialWorld (List.replicate n RegOp.initOp)).2 =
      List.replicate n (RegRes.ptr (some 0)) := by
  obtain ⟨m, rfl⟩ : ∃ m, n = m + 1 := ⟨n - 1, by omega⟩
  have hstep : runOps initialWorld (List.replicate (m + 1) RegOp.initOp) =
      (⟨some 0, true, 1, metricNames⟩,
        RegRes.ptr (some 0) :: List.replicate m (RegRes.ptr (some 0))) := by
    have hd := runOps_init_done m (⟨some 0, true, 1, metricNames⟩ : World) rfl
    rw [List.replicate_succ]
    simp only [runOps]
    rw [show InitMetrics initialWorld =
      ((⟨some 0, true, 1, metricNames⟩ : World), some 0) from rfl]
    rw [hd]
  rw [hstep]
  refine ⟨rfl, rfl, ?_⟩
  rw [List.replicate_succ]

/-- C3 witness: three InitMetrics calls. -/
theorem initMetrics_exactly_once_witness :
    0 < 3 ∧
    ((runOps initialWorld (List.replicate 3 RegOp.initOp)).1.allocCount = 1 ∧
     (runOps initialWorld (List.replicate 3 RegOp.initOp)).1.registered =
       metricNames ∧
     (runOps initialWorld (List.replicate 3 RegOp.initOp)).2 =
       List.replicate 3 (RegRes.ptr (some 0))) :=
  ⟨by decide, initMetrics_exactly_once 3 (by decide)⟩

/-- C4 counterexample: the wrapper does not record the FIRST status code
written; after WriteHeader(201) then WriteHeader(404) the captured status
is 404, not the first code 201. -/
theorem responseWriter_first_status_counterexample :
    ((runEvents fullWrite recorderInit
        [WriterEvent.writeHeader 201, WriterEvent.writeHeader 404]).1).statusCode
      = 404 ∧ 404 ≠ 201 := by decide

/-- C4 (amended): the wrapper forwards every body write unchanged to the
underlying writer and returns the underlying writer's result, accumulates
the cumulative count of bytes the underlying writer reports written, and
records the MOST RECENT status code passed to WriteHeader (equal to the
first when the handler calls WriteHeader at most once), keeping its
default when WriteHeader is never called. -/
theorem responseWriter_forwarding_and_last_status
    (wres : String → Nat × Bool) (evs : List WriterEvent) :
    ∀ s : RWState,
      ((runEvents wres s evs).1).und.chunks = s.und.chunks ++ writesOf evs ∧
      (runEvents wres s evs).2 = (writesOf evs).map wres ∧
      ((runEvents wres s evs).1).written =
        s.written + ((writesOf evs).map fun b => ((wres b).1 : Int)).sum ∧
      ((runEvents wres s evs).1).statusCode = lastStatus s.statusCode evs := by
  induction evs with
  | nil =>
      intro s
      refine ⟨by simp [runEvents, writesOf], rfl,
        by simp [runEvents, writesOf], rfl⟩
  | cons e rest ih =>
      intro s
      cases e with
      | setHeader k v =>
          simp only [runEvents, writesOf, lastStatus]
          exact ih _
      | writeHeader code =>
          simp only [runEvents, writesOf, lastStatus]
          exact ih _
      | write b =>
          obtain ⟨h1, h2, h3, h4⟩ :=
            ih { s with written := s.written + ((wres b).1 : Int)
                        und := { s.und with chunks := s.und.chunks ++ [b] } }
          simp only [runEvents, writesOf, lastStatus, List.map_cons,
            List.sum_cons]
          refine ⟨?_, ?_, ?_, h4⟩
          · rw [h1]
            simp [List.append_assoc]
          · rw [h2]
          · rw [h3]
            simp only
            omega

/-- C5: RecordRequest increments the total-request counter by exactly 1
and the active-request gauge by exactly 1; its completion token decrements
the gauge by exactly 1 on any state, so running it once returns the gauge
to its pre-call value, while not running it leaves the gauge one higher. -/
theorem recordRequest_increments_and_token (m : MetricsData) :
    (m.RecordRequest.1).RequestCounter = m.RequestCounter + 1 ∧
    (m.RecordRequest.1).ActiveRequestsGauge = m.ActiveRequestsGauge + 1 ∧
    (∀ mm : MetricsData,
      (m.RecordRequest.2 mm).ActiveRequestsGauge =
        mm.ActiveRequestsGauge - 1) ∧
    (m.RecordRequest.2 m.RecordRequest.1).ActiveRequestsGauge =
      m.ActiveRequestsGauge := by
  refine ⟨rfl, rfl, fun mm => rfl, ?_⟩
  show m.ActiveRequestsGauge + 1 - 1 = m.ActiveRequestsGauge
  omega

/-- C6: a middleware invocation increments http_errors_total by exactly 1
if the captured status is at least 500 and leaves it unchanged otherwise
(in particular unchanged after a 200). -/
theorem http_error_counter_iff_5xx (handler : Ctx → List WriterEvent)
    (m : MetricsData) (fresh : String) (dur : ℚ) (wres : String → Nat × Bool)
    (w0 : List (String × String)) (r : Request) :
    ∃ res : MWResult,
      RequestInstrumentationMiddleware handler (some m) fresh dur wres w0 r =
        Except.ok res ∧
      res.metrics.HTTPErrorCounter =
        m.HTTPErrorCounter + (if res.final.statusCode ≥ 500 then 1 else 0) := by
  refine ⟨_, rfl, ?_⟩
  dsimp only
  rw [mwMetrics_HTTPErrorCounter]

/-- C7: attach/read round-trip for any ID including the empty string; a
context without an attached ID reads as empty (total, never throws); and
GetOrCreateCorrelationID returns the attached ID exactly when non-empty
and the fresh one otherwise (a pure function of the context, which it does
not mutate). -/
theorem correlation_context_roundtrip (ctx : Ctx) (id fresh : String) :
    GetCorrelationID (WithCorrelationID ctx id) = id ∧
    (ctxValue ctx CorrelationID = none → GetCorrelationID ctx = "") ∧
    GetOrCreateCorrelationID ctx fresh =
      (if GetCorrelationID ctx ≠ "" then GetCorrelationID ctx else fresh) := by
  refine ⟨getCorrelation_with ctx id, ?_, ?_⟩
  · intro h
    simp [GetCorrelationID, h]
  · cases hv : ctxValue ctx CorrelationID with
    | none => simp [GetOrCreateCorrelationID, GetCorrelationID, hv]
    | some v =>
        by_cases hemp : v = "" <;>
          simp [GetOrCreateCorrelationID, GetCorrelationID, hv, hemp]

/-- C7 witness: the empty context and the empty ID. -/
theorem correlation_context_roundtrip_witness :
    GetCorrelationID (WithCorrelationID ([] : Ctx) "") = "" ∧
    GetCorrelationID ([] : Ctx) = "" ∧
    GetOrCreateCorrelationID ([] : Ctx) "fresh-uuid" = "fresh-uuid" := by
  have h := correlation_context_roundtrip [] "" "fresh-uuid"
  refine ⟨h.1, h.2.1 rfl, ?_⟩
  rw [h.2.2]
  decide

/-- C8: the middleware observes the declared content length into the
request-size histogram exactly when it is positive, and the observation
happens before the inner handler runs (position 2 against position 4 in
the execution trace); with unknown (negative) or zero content length the
histogram is untouched and no observation event exists. -/
theorem request_size_observed_iff_positive (handler : Ctx → List WriterEvent)
    (m : MetricsData) (fresh : String) (dur : ℚ) (wres : String → Nat × Bool)
    (w0 : List (String × String)) (r : Request) :
    ∃ res : MWResult,
      RequestInstrumentationMiddleware handler (some m) fresh dur wres w0 r =
        Except.ok res ∧
      res.metrics.RequestSize =
        (if 0 < r.contentLength then m.RequestSize ++ [(r.contentLength : ℚ)]
         else m.RequestSize) ∧
      (0 < r.contentLength →
        res.trace.get? 2 = some (MWEvent.observeReqSize r.contentLength) ∧
        res.trace.get? 4 = some MWEvent.handlerRun) ∧
      (¬ 0 < r.contentLength → hasObserveReqSize res.trace = false) := by
  refine ⟨_, rfl, ?_, ?_, ?_⟩
  · dsimp only
    rw [mwMetrics_RequestSize]
  · intro h
    exact mwTrace_obs_before_handler _ _ _ _ _ _ _ _ h
  · intro h
    exact mwTrace_no_obs _ _ _ _ _ _ _ _ h

/-- A concrete request declaring a 5-byte payload, used as witness
input. -/
def sizedRequest : Request :=
  { method := "POST"
    path := "/"
    headers := []
    contentLength := 5
    remoteAddr := "192.0.2.1:1234"
    userAgent := "curl/8.0"
    ctx := [] }

/-- C8 witness: a request with content length 5 gets its size observed
before the handler runs. -/
theorem request_size_observed_iff_positive_witness :
    ∃ res : MWResult,
      RequestInstrumentationMiddleware (fun _ => []) (some newMetricsData)
        "g" 0 fullWrite [] sizedRequest = Except.ok res ∧
      res.metrics.RequestSize = [(5 : ℚ)] ∧
      res.trace.get? 2 = some (MWEvent.observeReqSize 5) ∧
      res.trace.get? 4 = some MWEvent.handlerRun := by
  obtain ⟨res, hok, hsize, hpos, _⟩ :=
    request_size_observed_iff_positive (fun _ => []) newMetricsData
      "g" 0 fullWrite [] sizedRequest
  obtain ⟨hg2, hg4⟩ := hpos (by decide)
  refine ⟨res, hok, ?_, hg2, hg4⟩
  rw [hsize]
  decide

/-- C9: GET / answers 200 text/plain with body "pong" plus newline; GET
/health answers 200 application/json with a body containing the healthy
JSON object; GET /metrics answers 200 with a body containing the HELP
line of http_requests_total. -/
theorem endpoint_scenarios :
    responseBody (serve "/") = "pong\n" ∧
    responseStatus (serve "/") = 200 ∧
    headerGet (serve "/").und.headers "Content-Type" = "text/plain" ∧
    responseStatus (serve "/health") = 200 ∧
    headerGet (serve "/health").und.headers "Content-Type" =
      "application/json" ∧
    (∃ pre post, responseBody (serve "/health") =
      pre ++ "\x7b\"status\":\"healthy\"\x7d" ++ post) ∧
    responseStatus (serve "/metrics") = 200 ∧
    (∃ pre post, responseBody (serve "/metrics") =
      pre ++ "# HELP http_requests_total" ++ post) := by
  refine ⟨by decide, by decide, by decide, by decide, by decide,
    ⟨"", "\n", by decide⟩, by decide, ?_⟩
  refine ⟨"",
    " Total number of HTTP requests received\n# TYPE http_requests_total counter\n" ++
      expositionOf (metricFamilies.drop 1), ?_⟩
  have h1 : responseBody (serve "/metrics") =
      renderFamily ("http_requests_total",
        "Total number of HTTP requests received", "counter") ++
        expositionOf (metricFamilies.drop 1) := rfl
  have h2 : renderFamily ("http_requests_total",
      "Total number of HTTP requests received", "counter") =
      "# HELP http_requests_total" ++
        " Total number of HTTP requests received\n# TYPE http_requests_total counter\n" := by
    decide
  rw [h1, h2, String.append_assoc]
  rfl

/-- C10: when the inner handler never calls WriteHeader the middleware
captures the default status 200, the completion log line carries that
status, and http_errors_total is unchanged. -/
theorem default_status_when_no_writeheader (handler : Ctx → List WriterEvent)
    (m : MetricsData) (fresh : String) (dur : ℚ) (wres : String → Nat × Bool)
    (w0 : List (String × String)) (r : Request)
    (hh : ∀ c : Ctx, hasWriteHeader (handler c) = false) :
    ∃ res : MWResult,
      RequestInstrumentationMiddleware handler (some m) fresh dur wres w0 r =
        Except.ok res ∧
      res.final.statusCode = 200 ∧
      MWEvent.logEnd r.method r.path res.final.statusCode res.final.written
        res.correlationID ∈ res.trace ∧
      res.metrics.HTTPErrorCounter = m.HTTPErrorCounter := by
  have h200 : ∀ (s : RWState) (c : Ctx),
      (runEvents wres s (handler c)).1.statusCode = s.statusCode :=
    fun s c => runEvents_statusCode_default wres (handler c) s (hh c)
  refine ⟨_, rfl, h200 _ _, mwTrace_logEnd_mem _ _ _ _ _ _ _ _, ?_⟩
  dsimp only
  rw [mwMetrics_HTTPErrorCounter, h200]
  simp

/-- C10 witness: a handler that only writes a body through the wrapper. -/
theorem default_status_when_no_writeheader_witness :
    ∃ res : MWResult,
      RequestInstrumentationMiddleware (fun _ => [WriterEvent.write "ok"])
        (some newMetricsData) "g" 0 fullWrite [] demoRequest =
        Except.ok res ∧
      res.final.statusCode = 200 ∧
      MWEvent.logEnd demoRequest.method demoRequest.path
        res.final.statusCode res.final.written res.correlationID ∈
        res.trace ∧
      res.metrics.HTTPErrorCounter = newMetricsData.HTTPErrorCounter :=
  default_status_when_no_writeheader (fun _ => [WriterEvent.write "ok"])
    newMetricsData "g" 0 fullWrite [] demoRequest (fun _ => rfl)

end GoPing
